import Mathlib

/-!
Verification of the chroma-key compositing pipeline in src/app.py.

The application saves two uploaded files, reads the audio duration with
mutagen, turns the still image into a 24 fps video with ffmpeg, overlays a
green-screen clip through an ffmpeg chromakey/overlay filter graph, muxes the
audio back in and returns the path of the final file.  The Python functions
are embedded below as pure Lean functions; the calls into the external tools
(mutagen, ffmpeg) are modelled by explicit oracles (does the call succeed,
and with which value) so that every control-flow path of the Python code is
represented.
-/

/-- Last index of character c in the list, if any (Python str.rfind on one
character, with indices counted from the front). -/
def lastIdx : List Char → Char → Option Nat
  | [], _ => none
  | a :: as, c =>
    match lastIdx as c with
    | some i => some (i + 1)
    | none => if a = c then some 0 else none

/-- Embeds os.path.splitext(p)[1] (posixpath.splitext): the extension starts
at the last dot that lies after the last path separator, provided the
basename has a non-dot character before that dot; otherwise it is empty. -/
def splitextExt (p : String) : String :=
  let cs := p.toList
  let sepIdx : Int := match lastIdx cs '/' with | some i => (i : Int) | none => -1
  let dotIdx : Int := match lastIdx cs '.' with | some i => (i : Int) | none => -1
  if sepIdx < dotIdx then
    let fIdx := (sepIdx + 1).toNat
    let dIdx := dotIdx.toNat
    if ((cs.drop fIdx).take (dIdx - fIdx)).any (fun ch => ch ≠ '.') then
      String.mk (cs.drop dIdx)
    else ""
  else ""

/-- Embeds str.lower() for the ASCII strings handled here. -/
def strLower (s : String) : String := String.mk (s.toList.map Char.toLower)

/-- The four audio container formats recognised by get_audio_duration
(src/app.py lines 17-24): MP3, WAVE, AAC, OggVorbis. -/
inductive AudioFormat
  | mp3
  | wav
  | aac
  | ogg
deriving DecidableEq

/-- Embeds get_audio_duration (src/app.py lines 14-31).  The mutagen
constructor together with the .info.length read is modelled by the oracle
reader: Except.ok v means the metadata reader returned length v, and
Except.error means it raised, in which case the surrounding try/except
returns 0.  An extension outside the four supported ones returns 0 directly
(after an st.error message, which has no effect on the result). -/
def get_audio_duration (path : String) (reader : AudioFormat → Except String ℚ) : ℚ :=
  let ext := strLower (splitextExt path)
  if ext = ".mp3" then
    match reader AudioFormat.mp3 with | .ok v => v | .error _ => 0
  else if ext = ".wav" then
    match reader AudioFormat.wav with | .ok v => v | .error _ => 0
  else if ext = ".aac" then
    match reader AudioFormat.aac with | .ok v => v | .error _ => 0
  else if ext = ".ogg" then
    match reader AudioFormat.ogg with | .ok v => v | .error _ => 0
  else 0

/-- Which AudioFormat a lower-cased extension selects in get_audio_duration,
if any.  Helper for stating properties of get_audio_duration. -/
def audioFormatOf (ext : String) : Option AudioFormat :=
  if ext = ".mp3" then some AudioFormat.mp3
  else if ext = ".wav" then some AudioFormat.wav
  else if ext = ".aac" then some AudioFormat.aac
  else if ext = ".ogg" then some AudioFormat.ogg
  else none

lemma get_audio_duration_eq (path : String) (reader : AudioFormat → Except String ℚ) :
    get_audio_duration path reader =
      match audioFormatOf (strLower (splitextExt path)) with
      | none => 0
      | some f => match reader f with | .ok v => v | .error _ => 0 := by
  unfold get_audio_duration audioFormatOf
  dsimp only
  split_ifs <;> rfl

/-- One lowercase hexadecimal digit (value below 16). -/
def hexDigit (n : Nat) : Char :=
  if n < 10 then Char.ofNat (48 + n) else Char.ofNat (87 + n)

/-- Two-digit lowercase hexadecimal rendering of a byte, as produced by the
Python format specifier 02x for values 0-255. -/
def hex2 (n : Nat) : String :=
  String.mk [hexDigit (n / 16 % 16), hexDigit (n % 16)]

/-- Embeds the chroma_color f-string of apply_chroma_key (src/app.py line
36): the key colour rendered as 0x followed by three two-digit hex bytes. -/
def chroma_color (c : Nat × Nat × Nat) : String :=
  "0x" ++ hex2 c.1 ++ hex2 c.2.1 ++ hex2 c.2.2

/-- Default key colour of apply_chroma_key (src/app.py line 34):
color_to_remove=(0, 255, 0), pure green. -/
def default_color : Nat × Nat × Nat := (0, 255, 0)

/-- Default similarity of apply_chroma_key (src/app.py line 34):
similarity=0.1, as an exact rational. -/
def default_similarity : ℚ := 1 / 10

/-- The decimal rendering of default_similarity that the Python f-string
interpolates into the filter graph. -/
def similarity_str : String := "0.1"

/-- Embeds the filter_complex f-string of apply_chroma_key (src/app.py lines
41-44): chromakey on input 1 with the given colour and similarity, then
overlay of the keyed stream over input 0 with shortest=1. -/
def filter_complex (chromaColor simStr : String) : String :=
  "[1:v]chromakey=" ++ chromaColor ++ ":" ++ simStr ++ "[ckout];" ++
    "[0:v][ckout]overlay=shortest=1[outv]"

/-- Claim C7: when the caller supplies no key colour, the chroma key
operation uses pure green (0,255,0), rendered as the hex string 0x00ff00,
with the fixed similarity 0.1; the filter graph sent to ffmpeg is exactly
the chromakey/overlay string with those defaults.  (process_media, src line
93, passes no colour or similarity, so these defaults are what runs.) -/
theorem chroma_key_defaults :
    default_color = (0, 255, 0) ∧
    chroma_color default_color = "0x00ff00" ∧
    default_similarity = 1 / 10 ∧
    filter_complex (chroma_color default_color) similarity_str =
      "[1:v]chromakey=0x00ff00:0.1[ckout];[0:v][ckout]overlay=shortest=1[outv]" := by
  refine ⟨rfl, ?_, rfl, ?_⟩ <;> decide

/-- Fixed overlay clip path (src/app.py line 11). -/
def DEFAULT_OVERLAY_VIDEO : String := "greenscreen_overlay.mp4"

/-- Models tempfile.gettempdir() together with os.path.join: the three fixed
output locations of process_media (src/app.py lines 86, 92, 96). -/
def tmpdir : String := "/tmp"

def image_video_path : String := tmpdir ++ "/image_video.mp4"

def overlay_output_path : String := tmpdir ++ "/overlay_video.mp4"

def final_output_path : String := tmpdir ++ "/final_output.mp4"

/-- Embeds apply_chroma_key (src/app.py lines 34-51) at the level visible to
its caller.  The function builds the filter graph string and runs ffmpeg;
runOk models whether that run raises ffmpeg.Error.  It returns the filter
string it sent (first component) together with the Python return value:
output_path on success, None when ffmpeg.Error was caught (second
component).  The base and overlay paths are recorded for fidelity to the
Python signature; they do not influence the result. -/
def apply_chroma_key (runOk : Bool) (basePath overlayPath output_path : String)
    (color : Nat × Nat × Nat) (simStr : String) : String × Option String :=
  let _ := (basePath, overlayPath)
  let fc := filter_complex (chroma_color color) simStr
  (fc, if runOk then some output_path else none)

/-- Embeds combine_audio_video (src/app.py lines 54-65): runs ffmpeg to mux
the audio into the video; returns output_path on success and None when the
run raises ffmpeg.Error (caught internally). -/
def combine_audio_video (runOk : Bool) (audioPath videoPath output_path : String) :
    Option String :=
  let _ := (audioPath, videoPath)
  if runOk then some output_path else none

/-- One external effect of a process_media run, in invocation order. -/
inductive Step
  | saveAudio (path : String)
  | saveImage (path : String)
  | readDuration (d : ℚ)
  | buildImageVideo (path : String)
  | chromaKey (filterGraph : String) (result : Option String)
  | combineAV (result : Option String)
  | removeFile (path : String)
deriving DecidableEq

/-- Environment of one process_media call: the two uploaded file names, the
random stems tempfile chooses for the two temporary copies, the mutagen
oracle, and whether each external call succeeds (step1Ok: the Step-1 ffmpeg
run; chromaOk / combineOk: the runs inside apply_chroma_key and
combine_audio_video; removeOk: each os.remove). -/
structure Env where
  audioName : String
  imageName : String
  audioStem : String
  imageStem : String
  reader : AudioFormat → Except String ℚ
  step1Ok : Bool
  chromaOk : Bool
  combineOk : Bool
  removeOk : String → Bool

/-- Path of the temporary audio copy: the tempfile stem plus the suffix
splitext extracts from the uploaded name (src/app.py lines 71-73). -/
def audio_path (env : Env) : String := env.audioStem ++ splitextExt env.audioName

/-- Path of the temporary image copy (src/app.py lines 75-77). -/
def image_path (env : Env) : String := env.imageStem ++ splitextExt env.imageName

/-- Embeds process_media (src/app.py lines 68-109), returning the Python
result together with the trace of external effects it performed.  The
whole body runs inside try/except Exception: an uncaught raise from the
Step-1 ffmpeg run or from any os.remove makes the function return None at
that point.  apply_chroma_key and combine_audio_video catch their own
ffmpeg.Error and return None, and process_media ignores both return values
(src lines 93 and 97). -/
def process_media (env : Env) : Option String × List Step :=
  let ap := audio_path env
  let ip := image_path env
  let duration := get_audio_duration ap env.reader
  let t0 := [Step.saveAudio ap, Step.saveImage ip, Step.readDuration duration]
  if duration ≤ 0 then (none, t0)
  else if env.step1Ok = false then (none, t0 ++ [Step.buildImageVideo image_video_path])
  else
    let t1 := t0 ++ [Step.buildImageVideo image_video_path]
    let ck := apply_chroma_key env.chromaOk image_video_path DEFAULT_OVERLAY_VIDEO
      overlay_output_path default_color similarity_str
    let t2 := t1 ++ [Step.chromaKey ck.1 ck.2]
    let cv := combine_audio_video env.combineOk ap overlay_output_path final_output_path
    let t3 := t2 ++ [Step.combineAV cv]
    if env.removeOk ap = false then (none, t3)
    else
      let t4 := t3 ++ [Step.removeFile ap]
      if env.removeOk ip = false then (none, t4)
      else
        let t5 := t4 ++ [Step.removeFile ip]
        if env.removeOk image_video_path = false then (none, t5)
        else
          let t6 := t5 ++ [Step.removeFile image_video_path]
          if env.removeOk overlay_output_path = false then (none, t6)
          else (some final_output_path, t6 ++ [Step.removeFile overlay_output_path])

/-- Whether a trace step builds video output (Step 1's image-to-video run,
the chroma-key overlay, or the audio-video mux). -/
def video_step : Step → Bool
  | Step.buildImageVideo _ => true
  | Step.chromaKey _ _ => true
  | Step.combineAV _ => true
  | _ => false

lemma process_media_nonpos_duration (env : Env)
    (h : get_audio_duration (audio_path env) env.reader ≤ 0) :
    (process_media env).1 = none ∧
      ∀ s ∈ (process_media env).2, video_step s = false := by
  unfold process_media
  dsimp only
  rw [if_pos h]
  refine ⟨rfl, ?_⟩
  intro s hs
  simp only [List.mem_cons, List.not_mem_nil, or_false] at hs
  rcases hs with rfl | rfl | rfl <;> rfl

/-- Claim C1: whenever the duration read from the audio file is nonpositive,
process_media returns None, and its trace contains no video-building step
(no Step-1 image-to-video run, no chroma-key overlay, no audio mux): the
request is rejected before any frame of output video is produced. -/
theorem process_media_rejects_nonpositive_duration (env : Env)
    (h : get_audio_duration (audio_path env) env.reader ≤ 0) :
    (process_media env).1 = none ∧
      ∀ s ∈ (process_media env).2, video_step s = false :=
  process_media_nonpos_duration env h

/-- Environment whose metadata reader always raises, so the duration is 0. -/
def envNoDuration : Env :=
  ⟨"song.mp3", "pic.png", "/tmp/tmpa1", "/tmp/tmpb2",
    fun _ => Except.error "mutagen failed", true, true, true, fun _ => true⟩

theorem process_media_rejects_nonpositive_duration_witness :
    get_audio_duration (audio_path envNoDuration) envNoDuration.reader ≤ 0 ∧
      ((process_media envNoDuration).1 = none ∧
        ∀ s ∈ (process_media envNoDuration).2, video_step s = false) :=
  ⟨by decide, process_media_rejects_nonpositive_duration envNoDuration (by decide)⟩

/-- Claim C8: when the duration of the saved audio file is undeterminable --
its extension selects none of MP3/WAVE/AAC/OggVorbis, or the metadata reader
raises -- get_audio_duration returns 0 and process_media consequently
rejects the request, returning None. -/
theorem undeterminable_duration_rejected (env : Env)
    (h : audioFormatOf (strLower (splitextExt (audio_path env))) = none ∨
      ∃ f e, audioFormatOf (strLower (splitextExt (audio_path env))) = some f ∧
        env.reader f = Except.error e) :
    get_audio_duration (audio_path env) env.reader = 0 ∧
      (process_media env).1 = none := by
  have hz : get_audio_duration (audio_path env) env.reader = 0 := by
    rw [get_audio_duration_eq]
    rcases h with h | ⟨f, e, hf, he⟩
    · rw [h]
    · rw [hf]
      dsimp only
      rw [he]
  exact ⟨hz, (process_media_nonpos_duration env (le_of_eq hz)).1⟩

/-- Environment whose uploaded audio file has an unsupported extension. -/
def envBadExt : Env :=
  ⟨"voice.flac", "pic.png", "/tmp/tmpc3", "/tmp/tmpd4",
    fun _ => Except.ok 7, true, true, true, fun _ => true⟩

theorem undeterminable_duration_rejected_witness :
    (audioFormatOf (strLower (splitextExt (audio_path envBadExt))) = none ∨
      ∃ f e, audioFormatOf (strLower (splitextExt (audio_path envBadExt))) = some f ∧
        envBadExt.reader f = Except.error e) ∧
      (get_audio_duration (audio_path envBadExt) envBadExt.reader = 0 ∧
        (process_media envBadExt).1 = none) :=
  ⟨Or.inl (by decide), undeterminable_duration_rejected envBadExt (Or.inl (by decide))⟩

/-- Claim C9 (implicit): get_audio_duration is total over the embedding --
it always returns a rational and never propagates a failure of the metadata
reader: an unrecognised extension yields 0, a reader failure yields 0, and a
successful read yields exactly the length the reader reported. -/
theorem get_audio_duration_total (path : String)
    (reader : AudioFormat → Except String ℚ) :
    (audioFormatOf (strLower (splitextExt path)) = none →
      get_audio_duration path reader = 0) ∧
    (∀ f e, audioFormatOf (strLower (splitextExt path)) = some f →
      reader f = Except.error e → get_audio_duration path reader = 0) ∧
    (∀ f v, audioFormatOf (strLower (splitextExt path)) = some f →
      reader f = Except.ok v → get_audio_duration path reader = v) := by
  refine ⟨?_, ?_, ?_⟩
  · intro h
    rw [get_audio_duration_eq, h]
  · intro f e hf he
    rw [get_audio_duration_eq, hf]
    dsimp only
    rw [he]
  · intro f v hf hv
    rw [get_audio_duration_eq, hf]
    dsimp only
    rw [hv]

theorem get_audio_duration_total_witness :
    get_audio_duration "a.xyz" (fun _ => Except.error "boom") = 0 ∧
    get_audio_duration "b.mp3" (fun _ => Except.error "boom") = 0 ∧
    get_audio_duration "/tmp/c.mp3" (fun _ => Except.ok 5) = 5 :=
  ⟨(get_audio_duration_total "a.xyz" (fun _ => Except.error "boom")).1 (by decide),
    (get_audio_duration_total "b.mp3" (fun _ => Except.error "boom")).2.1
      AudioFormat.mp3 "boom" (by decide) rfl,
    (get_audio_duration_total "/tmp/c.mp3" (fun _ => Except.ok 5)).2.2
      AudioFormat.mp3 5 (by decide) rfl⟩

/-- Execution in which the ffmpeg run inside combine_audio_video raises
ffmpeg.Error while every other external call succeeds. -/
def envCombineFails : Env :=
  ⟨"track.wav", "photo.jpg", "/tmp/tmpe5", "/tmp/tmpf6",
    fun _ => Except.ok 3, true, true, false, fun _ => true⟩

/-- Claim C10 (implicit): there is an execution in which combine_audio_video
fails -- it catches ffmpeg.Error and returns None -- yet process_media,
which ignores that return value, still runs all four cleanup removals and
returns final_output_path.  A non-None result from process_media therefore
does not guarantee that every pipeline step succeeded. -/
theorem combine_failure_ignored_execution :
    combine_audio_video envCombineFails.combineOk (audio_path envCombineFails)
        overlay_output_path final_output_path = none ∧
    Step.combineAV none ∈ (process_media envCombineFails).2 ∧
    Step.removeFile (audio_path envCombineFails) ∈ (process_media envCombineFails).2 ∧
    Step.removeFile (image_path envCombineFails) ∈ (process_media envCombineFails).2 ∧
    Step.removeFile image_video_path ∈ (process_media envCombineFails).2 ∧
    Step.removeFile overlay_output_path ∈ (process_media envCombineFails).2 ∧
    (process_media envCombineFails).1 = some final_output_path := by
  decide

/-- Execution in which the mux step errors; used to evaluate process_media
against the all-or-nothing contract of claim C4. -/
def envPartial : Env :=
  ⟨"speech.ogg", "bg.png", "/tmp/tmpg7", "/tmp/tmph8",
    fun _ => Except.ok 12, true, true, false, fun _ => true⟩

/-- Claim C4 fails on the code: in this execution a pipeline step errors
(the ffmpeg run inside combine_audio_video raises ffmpeg.Error, so the mux
step returns None), yet process_media does not return None -- it returns
final_output_path, a path no successful mux ever wrote.  The caller
receives a path to a missing or stale output instead of a failure. -/
theorem process_media_returns_path_after_combine_failure :
    combine_audio_video envPartial.combineOk (audio_path envPartial)
        overlay_output_path final_output_path = none ∧
    Step.combineAV none ∈ (process_media envPartial).2 ∧
    (process_media envPartial).1 = some final_output_path ∧
    (process_media envPartial).1 ≠ none := by
  decide

/-- One RGB pixel: red, green, blue channel values. -/
abbrev Pixel := Nat × Nat × Nat

/-- One video frame: a 2D pixel grid, row by row. -/
abbrev Frame := List (List Pixel)

/-- Absolute difference of two channel values. -/
def chDiff (a b : Nat) : Nat := max a b - min a b

/-- Modelled from the spec: classifyKeyPixel (spec section 4.1).  The
per-pixel classification runs inside the external chromakey filter and is
absent from src/app.py, which only passes the key colour and similarity;
the spec's rule is that a pixel is keyed (made transparent) exactly when
every channel's absolute difference from the key colour is below the
tolerance. -/
def classifyKeyPixel (p k : Pixel) (tol : Nat) : Bool :=
  decide (chDiff p.1 k.1 < tol) && decide (chDiff p.2.1 k.2.1 < tol) &&
    decide (chDiff p.2.2 k.2.2 < tol)

/-- All three channels are in the 0-255 byte range. -/
def validPixel (p : Pixel) : Prop := p.1 ≤ 255 ∧ p.2.1 ≤ 255 ∧ p.2.2 ≤ 255

/-- Claim C5 as stated is false: under the spec's strict rule (every channel
difference strictly below the tolerance), tolerance 255 does not key out
every pixel -- the pixel (0,0,0) against key colour (0,255,0) has a green
difference of exactly 255, which is not below 255 -- and tolerance 0 keys
out nothing, not even the exact match (0,255,0) itself. -/
theorem classifyKeyPixel_boundary_counterexample :
    classifyKeyPixel (0, 0, 0) (0, 255, 0) 255 = false ∧
    classifyKeyPixel (0, 255, 0) (0, 255, 0) 0 = false := by
  decide

/-- Claim C5, amended: a pixel is classified as key iff every channel's
absolute difference from the key colour is strictly below the tolerance;
consequently tolerance 0 keys out no pixel (so vacuously only exact
matches), and tolerance 256 -- not 255 -- keys out every pixel with byte
channels. -/
theorem classifyKeyPixel_spec_amended (p k : Pixel) (tol : Nat)
    (hp : validPixel p) (hk : validPixel k) :
    (classifyKeyPixel p k tol = true ↔
      chDiff p.1 k.1 < tol ∧ chDiff p.2.1 k.2.1 < tol ∧ chDiff p.2.2 k.2.2 < tol) ∧
    classifyKeyPixel p k 0 = false ∧
    classifyKeyPixel p k 256 = true := by
  obtain ⟨hp1, hp2, hp3⟩ := hp
  obtain ⟨hk1, hk2, hk3⟩ := hk
  refine ⟨?_, ?_, ?_⟩
  · simp [classifyKeyPixel, and_assoc]
  · simp [classifyKeyPixel]
  · simp only [classifyKeyPixel, chDiff, Bool.and_eq_true, decide_eq_true_eq]
    omega

theorem classifyKeyPixel_spec_amended_witness :
    (classifyKeyPixel (1, 2, 3) (4, 5, 6) 10 = true ↔
      chDiff 1 4 < 10 ∧ chDiff 2 5 < 10 ∧ chDiff 3 6 < 10) ∧
    classifyKeyPixel (1, 2, 3) (4, 5, 6) 0 = false ∧
    classifyKeyPixel (1, 2, 3) (4, 5, 6) 256 = true :=
  classifyKeyPixel_spec_amended (1, 2, 3) (4, 5, 6) 10
    ⟨by decide, by decide, by decide⟩ ⟨by decide, by decide, by decide⟩

/-- Modelled from the spec: one row of composeFrame (spec section 4.1) --
per pixel position, the background pixel where the mask is true, else the
overlay pixel. -/
def composeRow : List Pixel → List Pixel → List Bool → List Pixel
  | b :: bs, o :: os, t :: ts => (if t then b else o) :: composeRow bs os ts
  | _, _, _ => []

/-- Modelled from the spec: composeFrame (spec section 4.1), applied row by
row; the compositing itself runs inside the external overlay filter and is
absent from src/app.py. -/
def composeFrame : Frame → Frame → List (List Bool) → Frame
  | b :: bs, o :: os, m :: ms => composeRow b o m :: composeFrame bs os ms
  | _, _, _ => []

lemma composeRow_all_false : ∀ (bs os : List Pixel) (ms : List Bool),
    bs.length = os.length → os.length = ms.length →
    (∀ x ∈ ms, x = false) → composeRow bs os ms = os := by
  intro bs
  induction bs with
  | nil =>
    intro os ms h1 _ _
    cases os with
    | nil => rfl
    | cons o os => simp at h1
  | cons b bs ih =>
    intro os ms h1 h2 hm
    cases os with
    | nil => simp at h1
    | cons o os =>
      cases ms with
      | nil => simp at h2
      | cons t ts =>
        have ht : t = false := hm t (List.mem_cons_self _ _)
        subst ht
        simp only [composeRow, Bool.false_eq_true, if_false, List.cons.injEq, true_and]
        exact ih os ts (by simpa using h1) (by simpa using h2)
          (fun x hx => hm x (List.mem_cons_of_mem _ hx))

lemma composeRow_all_true : ∀ (bs os : List Pixel) (ms : List Bool),
    bs.length = os.length → os.length = ms.length →
    (∀ x ∈ ms, x = true) → composeRow bs os ms = bs := by
  intro bs
  induction bs with
  | nil => intro os ms _ _ _; rfl
  | cons b bs ih =>
    intro os ms h1 h2 hm
    cases os with
    | nil => simp at h1
    | cons o os =>
      cases ms with
      | nil => simp at h2
      | cons t ts =>
        have ht : t = true := hm t (List.mem_cons_self _ _)
        subst ht
        simp only [composeRow, if_true, List.cons.injEq, true_and]
        exact ih os ts (by simpa using h1) (by simpa using h2)
          (fun x hx => hm x (List.mem_cons_of_mem _ hx))

/-- The two grids have the same number of rows and equal row lengths
position by position. -/
def sameShape {α β : Type} (x : List (List α)) (y : List (List β)) : Prop :=
  List.Forall₂ (fun r s => List.length r = List.length s) x y

lemma composeFrame_all_false : ∀ (bg ov : Frame) (m : List (List Bool)),
    sameShape bg ov → sameShape ov m →
    (∀ row ∈ m, ∀ x ∈ row, x = false) → composeFrame bg ov m = ov := by
  intro bg
  induction bg with
  | nil =>
    intro ov m h1 _ _
    cases h1
    rfl
  | cons b bs ih =>
    intro ov m h1 h2 hm
    cases h1 with
    | cons hr h1rest =>
      cases h2 with
      | cons hs h2rest =>
        simp only [composeFrame, List.cons.injEq]
        constructor
        · exact composeRow_all_false _ _ _ hr hs
            (fun x hx => hm _ (List.mem_cons_self _ _) x hx)
        · exact ih _ _ h1rest h2rest
            (fun row hrow x hx => hm row (List.mem_cons_of_mem _ hrow) x hx)

lemma composeFrame_all_true : ∀ (bg ov : Frame) (m : List (List Bool)),
    sameShape bg ov → sameShape ov m →
    (∀ row ∈ m, ∀ x ∈ row, x = true) → composeFrame bg ov m = bg := by
  intro bg
  induction bg with
  | nil =>
    intro ov m h1 _ _
    cases h1
    rfl
  | cons b bs ih =>
    intro ov m h1 h2 hm
    cases h1 with
    | cons hr h1rest =>
      cases h2 with
      | cons hs h2rest =>
        simp only [composeFrame, List.cons.injEq]
        constructor
        · exact composeRow_all_true _ _ _ hr hs
            (fun x hx => hm _ (List.mem_cons_self _ _) x hx)
        · exact ih _ _ h1rest h2rest
            (fun row hrow x hx => hm row (List.mem_cons_of_mem _ hrow) x hx)

/-- Claim C6: for background, overlay and mask of identical dimensions, an
all-false mask composes to exactly the overlay frame, and an all-true mask
composes to exactly the background frame. -/
theorem composeFrame_mask_identities (bg ov : Frame) (m : List (List Bool))
    (h1 : sameShape bg ov) (h2 : sameShape ov m) :
    ((∀ row ∈ m, ∀ x ∈ row, x = false) → composeFrame bg ov m = ov) ∧
    ((∀ row ∈ m, ∀ x ∈ row, x = true) → composeFrame bg ov m = bg) :=
  ⟨composeFrame_all_false bg ov m h1 h2, composeFrame_all_true bg ov m h1 h2⟩

theorem composeFrame_mask_identities_witness :
    (((∀ row ∈ [[false, false]], ∀ x ∈ row, x = false) →
        composeFrame [[(1, 2, 3), (4, 5, 6)]] [[(7, 8, 9), (10, 11, 12)]]
          [[false, false]] = [[(7, 8, 9), (10, 11, 12)]]) ∧
      ((∀ row ∈ [[false, false]], ∀ x ∈ row, x = true) →
        composeFrame [[(1, 2, 3), (4, 5, 6)]] [[(7, 8, 9), (10, 11, 12)]]
          [[false, false]] = [[(1, 2, 3), (4, 5, 6)]])) :=
  composeFrame_mask_identities [[(1, 2, 3), (4, 5, 6)]] [[(7, 8, 9), (10, 11, 12)]]
    [[false, false]]
    (List.Forall₂.cons rfl List.Forall₂.nil) (List.Forall₂.cons rfl List.Forall₂.nil)

/-- Frame-level model of Step 1 of process_media (src/app.py lines 86-89):
ffmpeg turns the still image into a video of the audio's duration at r=24
fps, i.e. a sequence of identical frames; its frame count follows the
spec's convention of ceil(duration * frameRate) with frameRate fixed to
24. -/
def image_video_frames (img : Frame) (duration : ℚ) : List Frame :=
  List.replicate (Int.toNat ⌈duration * 24⌉) img

/-- Frame-level semantics of the filter graph built by apply_chroma_key
(src/app.py lines 41-44): the overlay filter with shortest=1 composites
base frame i with (chroma-keyed) overlay frame i and terminates the output
as soon as the shorter of the two inputs ends; the overlay stream is never
looped or restarted.  The per-frame composition operator is a parameter
here, since frame counts and frame selection do not depend on it. -/
def overlay_shortest (compose : Frame → Frame → Frame) (base ov : List Frame) :
    List Frame :=
  List.zipWith compose base ov

/-- The composited video process_media builds: Step 1's image video overlaid
with the greenscreen clip through the shortest=1 overlay graph. -/
def render_pipeline (compose : Frame → Frame → Frame) (img : Frame)
    (ov : List Frame) (duration : ℚ) : List Frame :=
  overlay_shortest compose (image_video_frames img duration) ov

lemma render_pipeline_length (compose : Frame → Frame → Frame) (img : Frame)
    (ov : List Frame) (duration : ℚ) :
    (render_pipeline compose img ov duration).length =
      min (Int.toNat ⌈duration * 24⌉) ov.length := by
  simp [render_pipeline, overlay_shortest, image_video_frames]

/-- Claim C2 fails on the code: with duration 1 s -- so ceil(1 * 24) = 24
output frames are required -- and a 12-frame overlay clip, the shortest=1
overlay graph yields only 12 composited frames, not 24: the output is
silently truncated at the overlay clip's end instead of containing exactly
ceil(duration * frameRate) frames. -/
theorem render_pipeline_truncates_at_overlay_end :
    Int.toNat ⌈(1 : ℚ) * 24⌉ = 24 ∧
    (render_pipeline (fun b _ => b) [[(10, 200, 10)]]
        (List.replicate 12 [[(0, 255, 0)]]) 1).length = 12 ∧
    (12 : Nat) ≠ 24 := by
  have h24 : ⌈(1 : ℚ) * 24⌉ = 24 := by norm_num
  refine ⟨by rw [h24]; rfl, ?_, by decide⟩
  rw [render_pipeline_length, h24]
  rfl

/-- Claim C3 fails on the code: with a 2-frame overlay clip and duration
1 s (24 output frames required, so M = 24 > N = 2), the looping rule would
make output frame 2 equal overlay frame 2 mod 2 = 0; instead the shortest=1
overlay graph ends the output after 2 frames, so frame index 2 does not
exist at all -- the overlay is never looped from its start. -/
theorem render_pipeline_never_loops_overlay :
    (2 : Nat) < 24 ∧
    (render_pipeline (fun _ o => o) [[(7, 7, 7)]]
        [[[(1, 1, 1)]], [[(2, 2, 2)]]] 1).length = 2 ∧
    (render_pipeline (fun _ o => o) [[(7, 7, 7)]]
        [[[(1, 1, 1)]], [[(2, 2, 2)]]] 1).get? 2 = none := by
  have h24 : ⌈(1 : ℚ) * 24⌉ = 24 := by norm_num
  refine ⟨by decide, ?_, ?_⟩
  · rw [render_pipeline_length, h24]
    rfl
  · rw [List.get?_eq_none, render_pipeline_length, h24]
    norm_num
